import Mathlib

/-!
Shallow embedding of the volydog storefront (src/app.py) in Lean 4.

The application is a Flask CRUD app over five relational tables
(User, Product, Order, OrderItem, SiteSettings).  We model the database
as explicit lists of records, HTTP form data as structures of optional
strings, and each request handler as a pure function from database
state and form to either an error or a new database state.  Python
exceptions that abort the request before commit are modelled by
returning an error and leaving the state untouched, which matches the
transactional behaviour of the handlers (nothing is committed on an
uncaught exception).

Python floats appear only as values that are parsed, copied and
compared, never as the result of rounding arithmetic, so they are
modelled as rationals.
-/

/-- Errors a handler can signal.  notFound models get_or_404 / a 404 JSON
response, validation a 400 JSON response, conflict the duplicate
username/email flash-and-redirect, and the remaining constructors model
uncaught Python exceptions that abort the request with a 500 before
commit. -/
inductive Err where
  | notFound
  | validation
  | conflict
  | typeError
  | valueError
  | attributeError
  | integrityError
deriving DecidableEq, Repr

deriving instance DecidableEq for Except

/-- Python truthiness of a form value: None and the empty string are falsy. -/
def truthy : Option String → Bool
  | none => false
  | some s => s ≠ ""

/-- Characters stripped by Python str.strip with no argument
(ASCII whitespace). -/
def pyIsSpace (c : Char) : Bool :=
  c = ' ' || c = '\t' || c = '\n' || c = '\r' || c.toNat = 11 || c.toNat = 12

/-- Python str.strip with no argument: remove leading and trailing
whitespace. -/
def pyStrip (s : String) : String :=
  String.mk (((s.data.dropWhile pyIsSpace).reverse.dropWhile pyIsSpace).reverse)

/-- One step of Python str.title: an alphabetic character is uppercased
when the previous character was not alphabetic and lowercased otherwise. -/
def pyTitleGo : List Char → Bool → List Char
  | [], _ => []
  | c :: cs, prevCased =>
    if c.isAlpha then
      (if prevCased then c.toLower else c.toUpper) :: pyTitleGo cs true
    else
      c :: pyTitleGo cs false

/-- Python str.title restricted to ASCII letters, which is all the
application feeds it. -/
def pyTitle (s : String) : String :=
  String.mk (pyTitleGo s.data false)

/-- The breed normalization used both when storing a product breed
(add_product, edit_product) and when interpreting the catalog breed
filter (puppies): strip then title-case. -/
def stripTitle (s : String) : String :=
  pyTitle (pyStrip s)

/-- Value of a nonempty digit string. -/
def digitsToNat (cs : List Char) : Nat :=
  cs.foldl (fun a c => a * 10 + (c.toNat - 48)) 0

/-- The optional exponent suffix of a Python float literal: empty, or
e/E followed by an optionally signed nonempty digit string. -/
def pyFloatExp? (cs : List Char) : Option Int :=
  match cs with
  | [] => some 0
  | c :: cs2 =>
    if c = 'e' || c = 'E' then
      let signRest : Int × List Char :=
        match cs2 with
        | '-' :: cs3 => (-1, cs3)
        | '+' :: cs3 => (1, cs3)
        | cs3 => (1, cs3)
      if signRest.2.isEmpty || !signRest.2.all Char.isDigit then none
      else some (signRest.1 * (digitsToNat signRest.2 : Int))
    else none

/-- Python float(s) on the decimal fragment the application can receive:
optional sign, digits with an optional fractional part (at least one
digit overall), optional exponent; surrounding whitespace is stripped.
Returns none where Python raises ValueError.  The non-numeric values
inf and nan are outside the model; no handler input produces them. -/
def pyFloat? (s : String) : Option Rat :=
  let t := (pyStrip s).data
  let signRest : Int × List Char :=
    match t with
    | '-' :: cs => (-1, cs)
    | '+' :: cs => (1, cs)
    | cs => (1, cs)
  let sign := signRest.1
  let body := signRest.2
  let intPart := body.takeWhile Char.isDigit
  let rest := body.dropWhile Char.isDigit
  let fracRest : List Char × List Char :=
    match rest with
    | '.' :: rest2 => (rest2.takeWhile Char.isDigit, rest2.dropWhile Char.isDigit)
    | _ => ([], rest)
  if intPart.isEmpty && fracRest.1.isEmpty then none
  else
    match pyFloatExp? fracRest.2 with
    | none => none
    | some e =>
      let num : Int := sign * Int.ofNat (digitsToNat (intPart ++ fracRest.1))
      let shift : Int := e - Int.ofNat fracRest.1.length
      if 0 ≤ shift then some (mkRat (num * Int.ofNat ((10 : Nat) ^ shift.toNat)) 1)
      else some (mkRat num ((10 : Nat) ^ (-shift).toNat))

/-- Python float(request.form.get(field)): a missing field is None and
float(None) raises TypeError; an unparseable string raises ValueError. -/
def pyFloatOfForm (raw : Option String) : Except Err Rat :=
  match raw with
  | none => .error .typeError
  | some s =>
    match pyFloat? s with
    | some r => .ok r
    | none => .error .valueError

/-- allowed_file from src/app.py: the filename contains a dot and the
extension after the last dot, lowercased, is in the allow-list. -/
def allowed_file (filename : String) : Bool :=
  filename.data.contains '.' &&
    (String.mk ((filename.data.reverse.takeWhile (· ≠ '.')).reverse.map Char.toLower))
      ∈ ["png", "jpg", "jpeg", "gif", "webp", "bmp"]

/-- Modelled from the spec: werkzeug.utils.secure_filename is an external
collaborator (the spec only requires "a sanitized filename"); we model it
as keeping filename-safe ASCII characters.  No claim depends on its
internals. -/
def secure_filename (f : String) : String :=
  String.mk (f.data.filter (fun c => c.isAlphanum || c = '.' || c = '_' || c = '-'))

/-- generate_order_number: fixed prefix concatenated with the current
timestamp string (passed in explicitly since the model is pure). -/
def generate_order_number (ts : String) : String :=
  "VELY" ++ ts

/-! ## Data model (the SQLAlchemy tables of src/app.py) -/

/-- User row.  phone and address are never set by the modelled handlers
and are omitted. -/
structure User where
  id : Nat
  username : String
  email : String
  password_hash : String
  is_admin : Bool
deriving DecidableEq, Repr

/-- Modelled from the spec: werkzeug generate_password_hash is an external
collaborator ("securely hashed password"); modelled as an injective
tagging function.  No claim depends on its internals. -/
def generate_password_hash (password : String) : String :=
  "pbkdf2$" ++ password

/-- Product row.  image_urls is stored as a list of relative paths,
additional_details as an association list mirroring the Python dict
(insertion ordered, unique keys). -/
structure Product where
  id : Nat
  name : Option String
  breed : Option String
  gender : Option String
  age : Option String
  price : Rat
  rating : Rat
  description : Option String
  image_urls : List String
  additional_details : List (String × String)
  is_available : Bool
deriving DecidableEq, Repr

/-- Order row with the denormalized customer snapshot. -/
structure Order where
  id : Nat
  order_number : String
  user_id : Option Nat
  customer_name : Option String
  customer_email : Option String
  customer_phone : Option String
  customer_address : Option String
  payment_method : Option String
  payment_status : String
  status : String
  total_amount : Rat
  notes : Option String
deriving DecidableEq, Repr

/-- OrderItem row: one line of an order, with the unit price captured at
order time. -/
structure OrderItem where
  id : Nat
  order_id : Nat
  product_id : Nat
  quantity : Nat
  price : Rat
deriving DecidableEq, Repr

/-- SiteSettings row; social_links is the JSON mapping, modelled as an
association list mirroring the Python dict. -/
structure SiteSettings where
  id : Nat
  location : Option String
  phone : Option String
  whatsapp : Option String
  contact_email : Option String
  business_hours : Option String
  social_links : List (String × String)
deriving DecidableEq, Repr

/-- The database.  The next* fields model the autoincrement primary-key
counters. -/
structure DB where
  users : List User
  products : List Product
  orders : List Order
  order_items : List OrderItem
  settings : List SiteSettings
  nextUserId : Nat
  nextProductId : Nat
  nextOrderId : Nat
  nextItemId : Nat
deriving DecidableEq, Repr

/-! ## Form data -/

/-- POST body of the checkout form; every field is what
request.form.get returns (None when absent). -/
structure CheckoutForm where
  name : Option String
  email : Option String
  phone : Option String
  address : Option String
  payment_method : Option String
  total_amount : Option String
  notes : Option String
  product_id : Option String
deriving DecidableEq, Repr

/-- POST body of the add/edit product form.  images is the list of
uploaded filenames (request.files.getlist, a falsy upload slot having an
empty filename); detail_keys and detail_values are the two parallel
arrays. -/
structure ProductForm where
  name : Option String
  breed : Option String
  gender : Option String
  age : Option String
  price : Option String
  rating : Option String
  description : Option String
  images : List String
  detail_keys : List String
  detail_values : List String
deriving DecidableEq, Repr

/-- POST body of the registration form. -/
structure RegisterForm where
  username : Option String
  email : Option String
  password : Option String
deriving DecidableEq, Repr

/-- POST body of the site-settings form. -/
structure SettingsForm where
  location : Option String
  phone : Option String
  whatsapp : Option String
  contact_email : Option String
  business_hours : Option String
  social_facebook : Option String
  social_twitter : Option String
  social_instagram : Option String
  social_youtube : Option String
deriving DecidableEq, Repr

/-! ## Catalog routes -/

/-- GET slash route: Product.query.filter_by(is_available=True).all(). -/
def index_products (db : DB) : List Product :=
  db.products.filter (fun p => p.is_available)

/-- GET /puppies: with a truthy breed parameter the parameter is stripped
and title-cased and matched exactly against the stored breed; otherwise
only products with a non-null breed are shown.  Availability is required
in both branches. -/
def puppies (db : DB) (breed : Option String) : List Product :=
  match breed with
  | some b =>
    if b ≠ "" then
      db.products.filter (fun p => p.breed = some (stripTitle b) && p.is_available)
    else
      db.products.filter (fun p => p.breed.isSome && p.is_available)
  | none =>
    db.products.filter (fun p => p.breed.isSome && p.is_available)

/-! ## Checkout -/

/-- Decimal parse of a primary-key string (the coercion SQLAlchemy
applies in Product.query.get). -/
def pkToNat? (s : String) : Option Nat :=
  if s.data ≠ [] && s.data.all Char.isDigit then some (digitsToNat s.data)
  else none

/-- Product.query.get on the raw form string: SQLAlchemy coerces the
string primary key to an integer; a non-match returns None. -/
def lookupProduct (db : DB) (s : String) : Option Product :=
  (pkToNat? s).bind (fun n => db.products.find? (fun p => p.id = n))

/-- POST /checkout.  The Order is built first (float(total_amount) can
raise), then, when a truthy product_id is supplied, the referenced
Product is fetched with no existence guard and product.price is read:
a missing product raises AttributeError on None before anything is
committed.  currentUser is the authenticated user id, ts the current
timestamp string. -/
def checkout_post (db : DB) (currentUser : Option Nat) (ts : String)
    (form : CheckoutForm) : Except Err DB :=
  match pyFloatOfForm form.total_amount with
  | .error e => .error e
  | .ok total =>
  let order : Order :=
    { id := db.nextOrderId
      order_number := generate_order_number ts
      user_id := currentUser
      customer_name := form.name
      customer_email := form.email
      customer_phone := form.phone
      customer_address := form.address
      payment_method := form.payment_method
      payment_status := "pending"
      status := "pending"
      total_amount := total
      notes := form.notes }
  if truthy form.product_id then
    match lookupProduct db (form.product_id.getD "") with
    | none => .error .attributeError
    | some product =>
      let item : OrderItem :=
        { id := db.nextItemId
          order_id := order.id
          product_id := product.id
          quantity := 1
          price := product.price }
      .ok { db with
              orders := db.orders ++ [order]
              order_items := db.order_items ++ [item]
              nextOrderId := db.nextOrderId + 1
              nextItemId := db.nextItemId + 1 }
  else
    .ok { db with
            orders := db.orders ++ [order]
            nextOrderId := db.nextOrderId + 1 }

/-! ## Registration -/

/-- POST /register.  Conflict checks run first (filter_by on a None form
value matches no row because username and email are non-null columns);
then the User is created with set_password; a None username or email
only fails at commit with an integrity error, a None password makes
generate_password_hash raise. -/
def register_post (db : DB) (form : RegisterForm) : Except Err DB :=
  if db.users.any (fun u => some u.username = form.username) then
    .error .conflict
  else if db.users.any (fun u => some u.email = form.email) then
    .error .conflict
  else
    match form.password with
    | none => .error .typeError
    | some pw =>
      match form.username, form.email with
      | some un, some em =>
        .ok { db with
                users := db.users ++
                  [{ id := db.nextUserId
                     username := un
                     email := em
                     password_hash := generate_password_hash pw
                     is_admin := false }]
                nextUserId := db.nextUserId + 1 }
      | _, _ => .error .integrityError

/-! ## Product administration -/

/-- The upload loop shared by add_product and edit_product: each slot
that is truthy (non-empty filename) and passes allowed_file is saved
under its sanitized name and its relative path recorded, in submission
order; everything else is skipped silently. -/
def processImages (images : List String) : List String :=
  (images.filter (fun f => f ≠ "" && allowed_file f)).map
    (fun f => "uploads/" ++ secure_filename f)

/-- Breed normalization in add_product: breed starts as None; a truthy
raw value is stripped, and only a non-empty strip result is
title-cased (a whitespace-only value is stored as the empty string). -/
def storedBreedAdd (raw : Option String) : Option String :=
  match raw with
  | none => none
  | some s =>
    if s = "" then none
    else
      let b := pyStrip s
      if b = "" then some "" else some (pyTitle b)

/-- Breed normalization in edit_product: as in add_product except a
whitespace-only value is stored as None. -/
def storedBreedEdit (raw : Option String) : Option String :=
  match raw with
  | none => none
  | some s =>
    if s = "" then none
    else
      let b := pyStrip s
      if b = "" then none else some (pyTitle b)

/-- Python dict assignment d[k] = v on an insertion-ordered mapping. -/
def dictInsert (m : List (String × String)) (k v : String) :
    List (String × String) :=
  if m.any (fun p => p.1 = k) then
    m.map (fun p => if p.1 = k then (k, v) else p)
  else
    m ++ [(k, v)]

/-- additional_details: zip the parallel key/value arrays, keeping only
pairs where both sides are truthy. -/
def buildDetails (ks vs : List String) : List (String × String) :=
  (ks.zip vs).foldl
    (fun m kv => if kv.1 ≠ "" && kv.2 ≠ "" then dictInsert m kv.1 kv.2 else m) []

/-- float(request.form.get(field) or 0.0): a missing or empty field
falls back to 0.0; a non-empty unparseable string raises ValueError. -/
def ratingOfForm (raw : Option String) : Except Err Rat :=
  match raw with
  | none => .ok 0
  | some s =>
    if s = "" then .ok 0
    else
      match pyFloat? s with
      | some r => .ok r
      | none => .error .valueError

/-- POST /admin/product/add (past the admin guard).  Images are
processed first, then breed and details are normalized, then the
Product constructor evaluates float(price) and float(rating or 0.0) in
that order — either can raise, aborting the request before commit. -/
def add_product_post (db : DB) (form : ProductForm) : Except Err DB :=
  let image_urls := processImages form.images
  let breed := storedBreedAdd form.breed
  let additional_details := buildDetails form.detail_keys form.detail_values
  match pyFloatOfForm form.price with
  | .error e => .error e
  | .ok price =>
  match ratingOfForm form.rating with
  | .error e => .error e
  | .ok rating =>
  let product : Product :=
    { id := db.nextProductId
      name := form.name
      breed := breed
      gender := form.gender
      age := form.age
      price := price
      rating := rating
      description := form.description
      image_urls := image_urls
      additional_details := additional_details
      is_available := true }
  .ok { db with
          products := db.products ++ [product]
          nextProductId := db.nextProductId + 1 }

/-- POST /admin/product/edit (past the admin guard): get_or_404, then
field updates.  float(price) can raise; the rating assignment is
wrapped in try/except and falls back to 0.0; newly uploaded images are
appended to the existing list; additional_details is fully replaced. -/
def edit_product_post (db : DB) (pid : Nat) (form : ProductForm) :
    Except Err DB :=
  match db.products.find? (fun p => p.id = pid) with
  | none => .error .notFound
  | some product =>
    match pyFloatOfForm form.price with
    | .error e => .error e
    | .ok price =>
    let rating : Rat :=
      match ratingOfForm form.rating with
      | .ok r => r
      | .error _ => 0
    let image_urls :=
      if form.images ≠ [] then product.image_urls ++ processImages form.images
      else product.image_urls
    let updated : Product :=
      { product with
          name := form.name
          breed := storedBreedEdit form.breed
          gender := form.gender
          age := form.age
          price := price
          rating := rating
          description := form.description
          image_urls := image_urls
          additional_details := buildDetails form.detail_keys form.detail_values }
    .ok { db with
            products := db.products.map
              (fun p => if p.id = pid then updated else p) }

/-- POST /admin/product/delete-image (past the admin guard): get_or_404
on the product, 400 when the JSON body has no truthy filename, 404 when
the filename is not in the image list, otherwise the first occurrence
is removed (Python list.remove).  The stored list is only ever a JSON
list in this model, so the comma-joined-string branch of the handler is
not taken. -/
def delete_product_image (db : DB) (pid : Nat) (filename : Option String) :
    Except Err DB :=
  match db.products.find? (fun p => p.id = pid) with
  | none => .error .notFound
  | some product =>
    match filename with
    | none => .error .validation
    | some fn =>
      if fn = "" then .error .validation
      else
        let imgs_list := product.image_urls
        if fn ∈ imgs_list then
          .ok { db with
                  products := db.products.map
                    (fun p =>
                      if p.id = pid then { p with image_urls := p.image_urls.erase fn }
                      else p) }
        else .error .notFound

/-! ## Order administration -/

/-- The allowed fulfillment statuses of update_order_status. -/
def allowedStatuses : List String :=
  ["pending", "processing", "completed", "cancelled"]

/-- POST /admin/order/update_status (past the admin guard): get_or_404,
then the status from the JSON body must be in the allowed set (a
missing key gives None, which is not in the set), else a 400; on
success the order status is updated in place. -/
def update_order_status (db : DB) (oid : Nat) (new_status : Option String) :
    Except Err DB :=
  match db.orders.find? (fun o => o.id = oid) with
  | none => .error .notFound
  | some _ =>
    match new_status with
    | some s =>
      if s ∈ allowedStatuses then
        .ok { db with
                orders := db.orders.map
                  (fun o => if o.id = oid then { o with status := s } else o) }
      else .error .validation
    | none => .error .validation

/-! ## Site settings -/

/-- The social_links mapping built on every settings save: exactly the
four fixed keys, each value the stripped submitted field defaulting to
the empty string. -/
def socialLinksOf (form : SettingsForm) : List (String × String) :=
  [("facebook", pyStrip (form.social_facebook.getD "")),
   ("twitter", pyStrip (form.social_twitter.getD "")),
   ("instagram", pyStrip (form.social_instagram.getD "")),
   ("youtube", pyStrip (form.social_youtube.getD ""))]

/-- POST /admin/site-settings (past the admin guard):
SiteSettings.query.first() decides between creating the row and
updating the first row in place; social_links is fully replaced. -/
def admin_site_settings_post (db : DB) (form : SettingsForm) : DB :=
  let social_links := socialLinksOf form
  match db.settings with
  | [] =>
    { db with
        settings :=
          [{ id := 1
             location := form.location
             phone := form.phone
             whatsapp := form.whatsapp
             contact_email := form.contact_email
             business_hours := form.business_hours
             social_links := social_links }] }
  | s :: rest =>
    { db with
        settings :=
          { s with
              location := form.location
              phone := form.phone
              whatsapp := form.whatsapp
              contact_email := form.contact_email
              business_hours := form.business_hours
              social_links := social_links } :: rest }

/-! ## Abbreviations for state updates -/

/-- The orders list after update_order_status succeeds: the row with the
given id gets the new status. -/
def ordersWithStatus (db : DB) (oid : Nat) (s : String) : List Order :=
  db.orders.map (fun o => if o.id = oid then { o with status := s } else o)

/-- The products list after delete_product_image succeeds: the row with
the given id loses the first occurrence of the filename. -/
def productsWithImageRemoved (db : DB) (pid : Nat) (f : String) : List Product :=
  db.products.map
    (fun p => if p.id = pid then { p with image_urls := p.image_urls.erase f } else p)

/-! ## Concrete fixtures used by witnesses and counterexamples -/

/-- A stored product with a normalized breed and two images. -/
def prodFix : Product :=
  { id := 1, name := some "Buddy", breed := some "Labrador",
    gender := some "Male", age := some "8 weeks", price := 500, rating := 4,
    description := some "Friendly", image_urls := ["uploads/a.png", "uploads/b.png"],
    additional_details := [("color", "golden")], is_available := true }

/-- An available product whose breed column is NULL. -/
def prodNoBreedFix : Product :=
  { id := 2, name := some "Shadow", breed := none, gender := none, age := none,
    price := 300, rating := 0, description := none, image_urls := [],
    additional_details := [], is_available := true }

/-- A pending order. -/
def orderFix : Order :=
  { id := 1, order_number := "VELY20260101000000", user_id := none,
    customer_name := some "Grace", customer_email := some "grace@example.com",
    customer_phone := none, customer_address := none,
    payment_method := some "bank", payment_status := "pending",
    status := "pending", total_amount := 500, notes := none }

/-- A registered non-admin user. -/
def userFix : User :=
  { id := 1, username := "alice", email := "alice@example.com",
    password_hash := generate_password_hash "pw1", is_admin := false }

/-- The fixture database. -/
def dbFix : DB :=
  { users := [userFix], products := [prodFix, prodNoBreedFix],
    orders := [orderFix], order_items := [], settings := [],
    nextUserId := 2, nextProductId := 3, nextOrderId := 2, nextItemId := 1 }

/-- A checkout form referencing product 1. -/
def checkoutFormFix : CheckoutForm :=
  { name := some "Grace", email := some "grace@example.com", phone := none,
    address := none, payment_method := some "bank",
    total_amount := some "500.0", notes := none, product_id := some "1" }

/-- The same checkout form referencing a product id with no stored row. -/
def checkoutFormMissing : CheckoutForm :=
  { checkoutFormFix with product_id := some "99" }

/-- An admin product form with an un-normalized breed, a parseable
rating, and a mixed batch of uploads. -/
def productFormFix : ProductForm :=
  { name := some "Rex", breed := some " german shepherd ",
    gender := some "Male", age := some "10 weeks", price := some "750.5",
    rating := some "4.5", description := none,
    images := ["pup 1.png", "malware.exe", "pic.JPG"],
    detail_keys := ["color", ""], detail_values := ["black", "x"] }

/-- The product form with a non-numeric rating field. -/
def productFormBadRating : ProductForm :=
  { productFormFix with rating := some "abc" }

/-- The product form with the rating field absent. -/
def productFormNoRating : ProductForm :=
  { productFormFix with rating := none }

/-- The product form whose only upload is a disallowed file. -/
def productFormMalware : ProductForm :=
  { productFormFix with images := ["malware.exe"] }

/-- A fresh registration. -/
def registerFormFix : RegisterForm :=
  { username := some "bob", email := some "bob@example.com",
    password := some "pw2" }

/-- A second registration reusing the first one's username. -/
def registerFormDup : RegisterForm :=
  { username := some "bob", email := some "other@example.com",
    password := some "pw3" }

/-- A settings form where twitter and youtube are not submitted. -/
def settingsFormFix : SettingsForm :=
  { location := some "Lagos", phone := some "123", whatsapp := none,
    contact_email := some "c@example.com", business_hours := some "9-5",
    social_facebook := some " https://fb.example ", social_twitter := none,
    social_instagram := some "ig", social_youtube := none }

/-- Extract the state a successful handler committed. -/
def okOr (r : Except Err DB) (d : DB) : DB :=
  match r with
  | .ok d2 => d2
  | .error _ => d

/-- State after registering bob. -/
def dbAfterRegister : DB := okOr (register_post dbFix registerFormFix) dbFix

/-- State after creating a product whose only upload was rejected. -/
def dbAfterAddMalware : DB := okOr (add_product_post dbFix productFormMalware) dbFix

/-- State after creating the german-shepherd product. -/
def dbAfterAddFix : DB := okOr (add_product_post dbFix productFormFix) dbFix

/-- State after the first site-settings save. -/
def dbAfterSettings : DB := admin_site_settings_post dbFix settingsFormFix

/-- Placeholder settings row for head-of-list extraction. -/
def emptySiteSettings : SiteSettings :=
  { id := 0, location := none, phone := none, whatsapp := none,
    contact_email := none, business_hours := none, social_links := [] }

/-- The settings row stored by the first save. -/
def settingsAfterFix : SiteSettings :=
  dbAfterSettings.settings.head?.getD emptySiteSettings

/-! ## Verified properties -/

/-- Helper: a successful edit_product request never touches the
order_items table. -/
theorem edit_product_post_preserves_order_items (db : DB) (pid : Nat)
    (form : ProductForm) (db' : DB)
    (h : edit_product_post db pid form = .ok db') :
    db'.order_items = db.order_items := by
  unfold edit_product_post at h
  split at h
  · exact absurd h (by simp)
  · split at h
    · exact absurd h (by simp)
    · rw [Except.ok.injEq] at h
      rw [← h]

/-- C1: a checkout POST whose product_id resolves to a stored Product
appends exactly one OrderItem, with quantity 1 and price equal to that
Product's price at order-creation time, and no later successful
edit_product call changes the stored order items (the price snapshot is
immutable). -/
theorem checkout_item_price_snapshot (db : DB) (cu : Option Nat) (ts : String)
    (form : CheckoutForm) (s : String) (p : Product) (t : Rat)
    (hs : form.product_id = some s) (hne : s ≠ "")
    (hp : lookupProduct db s = some p)
    (ht : pyFloatOfForm form.total_amount = .ok t) :
    ∃ db', checkout_post db cu ts form = .ok db' ∧
      db'.order_items = db.order_items ++
        [{ id := db.nextItemId, order_id := db.nextOrderId,
           product_id := p.id, quantity := 1, price := p.price }] ∧
      ∀ pid form2 db2, edit_product_post db' pid form2 = .ok db2 →
        db2.order_items = db'.order_items := by
  unfold checkout_post
  rw [ht, hs]
  simp only [truthy, Option.getD_some, hp]
  rw [if_pos (by simp [hne])]
  exact ⟨_, rfl, rfl, fun pid form2 db2 h2 =>
    edit_product_post_preserves_order_items _ pid form2 db2 h2⟩

/-- C1 witness: checking out product 1 at price 500 records the
snapshot item. -/
theorem checkout_item_price_snapshot_witness :
    ∃ db', checkout_post dbFix none "20260101000000" checkoutFormFix = .ok db' ∧
      db'.order_items = dbFix.order_items ++
        [{ id := dbFix.nextItemId, order_id := dbFix.nextOrderId,
           product_id := prodFix.id, quantity := 1, price := prodFix.price }] ∧
      ∀ pid form2 db2, edit_product_post db' pid form2 = .ok db2 →
        db2.order_items = db'.order_items :=
  checkout_item_price_snapshot dbFix none "20260101000000" checkoutFormFix
    "1" prodFix 500 rfl (by decide) (by decide) (by decide)

/-- C2 counterexample: an available product whose breed is NULL appears
on the index listing but is excluded from the unfiltered puppies
listing, so the unfiltered catalog listing does impose a condition on
the breed field. -/
theorem catalog_counterexample :
    prodNoBreedFix ∈ dbFix.products ∧ prodNoBreedFix.is_available = true ∧
    prodNoBreedFix ∉ puppies dbFix none ∧
    prodNoBreedFix ∈ index_products dbFix := by decide

/-- C2 amended: the index listing returns exactly the available
products; the unfiltered puppies listing returns exactly the available
products with a non-null breed; a truthy breed filter is stripped and
title-cased and matched exactly; when nothing matches the result is the
empty list (and the listing is a total function, never an error). -/
theorem catalog_listing_contract (db : DB) :
    (∀ p, p ∈ index_products db ↔ p ∈ db.products ∧ p.is_available = true) ∧
    (∀ p, p ∈ puppies db none ↔
      p ∈ db.products ∧ p.breed.isSome = true ∧ p.is_available = true) ∧
    (∀ s, s ≠ "" → ∀ p, (p ∈ puppies db (some s) ↔
      p ∈ db.products ∧ p.breed = some (stripTitle s) ∧ p.is_available = true)) ∧
    (∀ s, s ≠ "" →
      (∀ p ∈ db.products, ¬(p.breed = some (stripTitle s) ∧ p.is_available = true)) →
      puppies db (some s) = []) := by
  refine ⟨?_, ?_, ?_, ?_⟩
  · intro p
    simp [index_products, List.mem_filter]
  · intro p
    simp [puppies, List.mem_filter, and_assoc]
  · intro s hs p
    simp [puppies, hs, List.mem_filter, and_assoc]
  · intro s hs hnone
    simp only [puppies]
    rw [if_pos hs, List.filter_eq_nil_iff]
    intro p hp
    have := hnone p hp
    simp only [Bool.and_eq_true, decide_eq_true_eq]
    tauto

/-- C2 witness: a whitespace-and-case-mangled filter still finds the
Labrador, a breed with no products yields the empty list, and the
breedless product is on the index listing. -/
theorem catalog_listing_contract_witness :
    prodFix ∈ puppies dbFix (some " LABRADOR ") ∧
    puppies dbFix (some "Poodle") = [] ∧
    prodNoBreedFix ∈ index_products dbFix :=
  ⟨((catalog_listing_contract dbFix).2.2.1 " LABRADOR " (by decide) prodFix).mpr
      ⟨by decide, by decide, by decide⟩,
   (catalog_listing_contract dbFix).2.2.2 "Poodle" (by decide) (by decide),
   ((catalog_listing_contract dbFix).1 prodNoBreedFix).mpr ⟨by decide, by decide⟩⟩

/-- C3 counterexample: in add_product a present but unparseable rating
is not stored as 0.0 — float raises and the request aborts with no
product created. -/
theorem rating_counterexample :
    pyFloat? "abc" = none ∧
    add_product_post dbFix productFormBadRating = .error .valueError := by decide

/-- C3 amended: in create_product the stored rating is 0.0 when the
rating field is absent or empty, a present non-empty unparseable rating
aborts the request (no product stored), and a parseable rating is
stored as submitted; in edit_product the stored rating is 0.0 when the
field is absent, empty or unparseable, and a parseable rating is stored
as submitted. -/
theorem rating_default_contract (db : DB) (form : ProductForm) (pr : Rat)
    (hp : pyFloatOfForm form.price = .ok pr) :
    ((form.rating = none ∨ form.rating = some "") →
      ∃ db' q, add_product_post db form = .ok db' ∧
        db'.products = db.products ++ [q] ∧ q.rating = 0) ∧
    (∀ s, form.rating = some s → s ≠ "" → pyFloat? s = none →
      add_product_post db form = .error .valueError) ∧
    (∀ s r, form.rating = some s → s ≠ "" → pyFloat? s = some r →
      ∃ db' q, add_product_post db form = .ok db' ∧
        db'.products = db.products ++ [q] ∧ q.rating = r) ∧
    (∀ pid product, db.products.find? (fun p2 => p2.id = pid) = some product →
      ((form.rating = none ∨ form.rating = some "" ∨
          (∃ s, form.rating = some s ∧ pyFloat? s = none)) →
        ∃ db', edit_product_post db pid form = .ok db' ∧
          (∀ q ∈ db'.products, q.id = pid → q.rating = 0)) ∧
      (∀ s r, form.rating = some s → s ≠ "" → pyFloat? s = some r →
        ∃ db', edit_product_post db pid form = .ok db' ∧
          (∀ q ∈ db'.products, q.id = pid → q.rating = r))) := by
  refine ⟨?_, ?_, ?_, ?_⟩
  · intro hr
    unfold add_product_post
    rw [hp]
    have : ratingOfForm form.rating = .ok 0 := by
      rcases hr with h | h <;> rw [h] <;> simp [ratingOfForm]
    rw [this]
    exact ⟨_, _, rfl, rfl, rfl⟩
  · intro s hs hne hparse
    unfold add_product_post
    rw [hp]
    have : ratingOfForm form.rating = .error .valueError := by
      rw [hs]
      simp [ratingOfForm, hne, hparse]
    rw [this]
  · intro s r hs hne hparse
    unfold add_product_post
    rw [hp]
    have : ratingOfForm form.rating = .ok r := by
      rw [hs]
      simp [ratingOfForm, hne, hparse]
    rw [this]
    exact ⟨_, _, rfl, rfl, rfl⟩
  · intro pid product hfind
    constructor
    · intro hr
      unfold edit_product_post
      rw [hfind, hp]
      have hz : (match ratingOfForm form.rating with
          | .ok r => r
          | .error _ => (0 : Rat)) = 0 := by
        rcases hr with h | h | ⟨s, hs, hparse⟩
        · rw [h]; simp [ratingOfForm]
        · rw [h]; simp [ratingOfForm]
        · rw [hs]
          by_cases hse : s = "" <;> simp [ratingOfForm, hse, hparse]
      refine ⟨_, rfl, ?_⟩
      intro q hq hqid
      rw [List.mem_map] at hq
      obtain ⟨p2, hp2, hp2eq⟩ := hq
      by_cases hcase : p2.id = pid
      · rw [if_pos hcase] at hp2eq
        rw [← hp2eq]
        exact hz
      · rw [if_neg hcase] at hp2eq
        rw [← hp2eq] at hqid
        exact absurd hqid hcase
    · intro s r hs hne hparse
      unfold edit_product_post
      rw [hfind, hp]
      have hz : (match ratingOfForm form.rating with
          | .ok r2 => r2
          | .error _ => (0 : Rat)) = r := by
        rw [hs]
        simp [ratingOfForm, hne, hparse]
      refine ⟨_, rfl, ?_⟩
      intro q hq hqid
      rw [List.mem_map] at hq
      obtain ⟨p2, hp2, hp2eq⟩ := hq
      by_cases hcase : p2.id = pid
      · rw [if_pos hcase] at hp2eq
        rw [← hp2eq]
        exact hz
      · rw [if_neg hcase] at hp2eq
        rw [← hp2eq] at hqid
        exact absurd hqid hcase

/-- C3 witness: the three rating behaviours at concrete inputs. -/
theorem rating_default_contract_witness :
    add_product_post dbFix productFormBadRating = .error .valueError ∧
    (∃ db' q, add_product_post dbFix productFormNoRating = .ok db' ∧
      db'.products = dbFix.products ++ [q] ∧ q.rating = 0) ∧
    (∃ db', edit_product_post dbFix 1 productFormBadRating = .ok db' ∧
      ∀ q ∈ db'.products, q.id = 1 → q.rating = 0) :=
  ⟨(rating_default_contract dbFix productFormBadRating (mkRat 1501 2)
      (by decide)).2.1 "abc" rfl (by decide) (by decide),
   (rating_default_contract dbFix productFormNoRating (mkRat 1501 2)
      (by decide)).1 (Or.inl rfl),
   ((rating_default_contract dbFix productFormBadRating (mkRat 1501 2)
      (by decide)).2.2.2 1 prodFix (by decide)).1
     (Or.inr (Or.inr ⟨"abc", rfl, by decide⟩))⟩

/-- C4: update_order_status is NotFound for a missing order id;
"shipped" is outside the allowed status set, and any status outside
{pending, processing, completed, cancelled} (including a missing key)
draws a ValidationError with no state change (errors commit nothing);
an allowed status updates the order's status in place. -/
theorem update_order_status_contract (db : DB) (oid : Nat) (st : Option String) :
    (db.orders.find? (fun o => o.id = oid) = none →
      update_order_status db oid st = .error .notFound) ∧
    "shipped" ∉ allowedStatuses ∧
    ((∃ o, db.orders.find? (fun o2 => o2.id = oid) = some o) →
      (∀ s, st = some s → s ∉ allowedStatuses →
        update_order_status db oid st = .error .validation) ∧
      (st = none → update_order_status db oid st = .error .validation) ∧
      (∀ s, st = some s → s ∈ allowedStatuses →
        update_order_status db oid st =
          .ok { db with orders := ordersWithStatus db oid s })) := by
  refine ⟨?_, by decide, ?_⟩
  · intro hf
    unfold update_order_status
    rw [hf]
  · rintro ⟨o, hf⟩
    refine ⟨?_, ?_, ?_⟩
    · intro s hs hns
      unfold update_order_status
      rw [hf, hs]
      simp [hns]
    · intro hn
      unfold update_order_status
      rw [hf, hn]
    · intro s hs hmem
      unfold update_order_status
      rw [hf, hs]
      simp [hmem, ordersWithStatus]

/-- C4 witness: "shipped" is rejected with a ValidationError, a missing
order gives NotFound, and "completed" is applied in place. -/
theorem update_order_status_contract_witness :
    update_order_status dbFix 1 (some "shipped") = .error .validation ∧
    update_order_status dbFix 99 none = .error .notFound ∧
    update_order_status dbFix 1 (some "completed") =
      .ok { dbFix with orders := ordersWithStatus dbFix 1 "completed" } :=
  ⟨((update_order_status_contract dbFix 1 (some "shipped")).2.2
      ⟨orderFix, by decide⟩).1 "shipped" rfl (by decide),
   (update_order_status_contract dbFix 99 none).1 (by decide),
   ((update_order_status_contract dbFix 1 (some "completed")).2.2
      ⟨orderFix, by decide⟩).2.2 "completed" rfl (by decide)⟩

/-- C5: delete_product_image is a ValidationError when the request body
carries no truthy filename, a NotFoundError when the filename is not in
the product's image list (the failing requests commit nothing, so the
stored list is unchanged), and on success removes exactly that
filename's entry from the stored list. -/
theorem delete_image_contract (db : DB) (pid : Nat) (fn : Option String)
    (product : Product)
    (hfind : db.products.find? (fun p => p.id = pid) = some product) :
    ((fn = none ∨ fn = some "") →
      delete_product_image db pid fn = .error .validation) ∧
    (∀ f, fn = some f → f ≠ "" → f ∉ product.image_urls →
      delete_product_image db pid fn = .error .notFound) ∧
    (∀ f, fn = some f → f ≠ "" → f ∈ product.image_urls →
      delete_product_image db pid fn =
        .ok { db with products := productsWithImageRemoved db pid f }) := by
  refine ⟨?_, ?_, ?_⟩
  · rintro (rfl | rfl) <;> (unfold delete_product_image; rw [hfind]; try simp)
  · intro f hf hne hnm
    unfold delete_product_image
    rw [hfind, hf]
    simp [hne, hnm]
  · intro f hf hne hm
    unfold delete_product_image
    rw [hfind, hf]
    simp [hne, hm, productsWithImageRemoved]

/-- C5 witness: the three behaviours on product 1. -/
theorem delete_image_contract_witness :
    delete_product_image dbFix 1 none = .error .validation ∧
    delete_product_image dbFix 1 (some "zzz.png") = .error .notFound ∧
    delete_product_image dbFix 1 (some "uploads/a.png") =
      .ok { dbFix with products := productsWithImageRemoved dbFix 1 "uploads/a.png" } :=
  ⟨(delete_image_contract dbFix 1 none prodFix (by decide)).1 (Or.inl rfl),
   (delete_image_contract dbFix 1 (some "zzz.png") prodFix (by decide)).2.1
     "zzz.png" rfl (by decide) (by decide),
   (delete_image_contract dbFix 1 (some "uploads/a.png") prodFix (by decide)).2.2
     "uploads/a.png" rfl (by decide) (by decide)⟩

/-- C6: after a successful registration, registering again with the
same username (or the same email) fails with a ConflictError before any
user is created, and the successful registration appended exactly one
User whose admin flag is false. -/
theorem register_duplicate_conflict (db : DB) (f1 f2 : RegisterForm) (db' : DB)
    (h : register_post db f1 = .ok db')
    (hdup : f2.username = f1.username ∨ f2.email = f1.email) :
    register_post db' f2 = .error .conflict ∧
    ∃ nu, db'.users = db.users ++ [nu] ∧ nu.is_admin = false := by
  unfold register_post at h
  by_cases h1 : db.users.any (fun u => some u.username = f1.username) = true
  · simp [h1] at h
  · by_cases h2 : db.users.any (fun u => some u.email = f1.email) = true
    · simp [h1, h2] at h
    · rw [if_neg h1, if_neg h2] at h
      cases hpw : f1.password with
      | none => rw [hpw] at h; exact absurd h (by simp)
      | some pw =>
        rw [hpw] at h
        cases hun : f1.username with
        | none =>
          rw [hun] at h
          cases hem : f1.email with
          | none => rw [hem] at h; exact absurd h (by simp)
          | some em => rw [hem] at h; exact absurd h (by simp)
        | some un =>
          rw [hun] at h
          cases hem : f1.email with
          | none => rw [hem] at h; exact absurd h (by simp)
          | some em =>
            rw [hem] at h
            rw [Except.ok.injEq] at h
            subst h
            constructor
            · unfold register_post
              rcases hdup with hd | hd
              · rw [if_pos ?hc]
                case hc =>
                  rw [hd, hun]
                  simp [List.any_eq_true]
              · by_cases hu2 : (({ db with
                    users := db.users ++
                      [{ id := db.nextUserId, username := un, email := em,
                         password_hash := generate_password_hash pw,
                         is_admin := false }]
                    nextUserId := db.nextUserId + 1 } : DB).users.any
                      (fun u => some u.username = f2.username)) = true
                · rw [if_pos hu2]
                · rw [if_neg hu2, if_pos ?hc2]
                  case hc2 =>
                    rw [hd, hem]
                    simp [List.any_eq_true]
            · exact ⟨_, rfl, rfl⟩

/-- C6 witness: registering bob twice conflicts, and bob was created
without admin rights. -/
theorem register_duplicate_conflict_witness :
    register_post dbAfterRegister registerFormDup = .error .conflict ∧
    ∃ nu, dbAfterRegister.users = dbFix.users ++ [nu] ∧ nu.is_admin = false :=
  register_duplicate_conflict dbFix registerFormFix registerFormDup
    dbAfterRegister (by decide) (Or.inl rfl)

/-- C7: a successful product creation records exactly the uploads whose
extension (case-insensitively) is on the allow-list, sanitized, in
submission order; changing the upload batch can never turn a successful
request into a failure (disallowed files are skipped silently);
"malware.exe" is rejected, and when it is the only submitted file the
created product's image list is empty. -/
theorem upload_extension_filter (db : DB) (form : ProductForm) (db' : DB)
    (h : add_product_post db form = .ok db') :
    (∃ q, db'.products = db.products ++ [q] ∧
      q.image_urls = (form.images.filter (fun f => f ≠ "" && allowed_file f)).map
        (fun f => "uploads/" ++ secure_filename f)) ∧
    (∀ imgs, ∃ db2, add_product_post db { form with images := imgs } = .ok db2) ∧
    allowed_file "malware.exe" = false ∧
    allowed_file "photo.PNG" = true ∧
    (form.images = ["malware.exe"] →
      ∃ q, db'.products = db.products ++ [q] ∧ q.image_urls = []) := by
  unfold add_product_post at h
  cases hprice : pyFloatOfForm form.price with
  | error e => rw [hprice] at h; exact absurd h (by simp)
  | ok price =>
    rw [hprice] at h
    cases hrating : ratingOfForm form.rating with
    | error e => rw [hrating] at h; exact absurd h (by simp)
    | ok rating =>
      rw [hrating] at h
      rw [Except.ok.injEq] at h
      subst h
      refine ⟨⟨_, rfl, rfl⟩, ?_, by decide, by decide, ?_⟩
      · intro imgs
        have hprice2 : pyFloatOfForm ({ form with images := imgs } : ProductForm).price
            = .ok price := hprice
        have hrating2 : ratingOfForm ({ form with images := imgs } : ProductForm).rating
            = .ok rating := hrating
        unfold add_product_post
        rw [hprice2, hrating2]
        exact ⟨_, rfl⟩
      · intro himg
        refine ⟨_, rfl, ?_⟩
        rw [himg]
        show processImages ["malware.exe"] = []
        decide

/-- C7 witness: a creation whose only upload is "malware.exe" succeeds
with an empty image list, and replacing the upload batch never fails
the request. -/
theorem upload_extension_filter_witness :
    (∃ q, dbAfterAddMalware.products = dbFix.products ++ [q] ∧
      q.image_urls = []) ∧
    (∀ imgs, ∃ db2,
      add_product_post dbFix { productFormMalware with images := imgs } = .ok db2) :=
  ⟨(upload_extension_filter dbFix productFormMalware dbAfterAddMalware
      (by decide)).2.2.2.2 rfl,
   (upload_extension_filter dbFix productFormMalware dbAfterAddMalware
      (by decide)).2.1⟩

/-- C8: stripping and title-casing maps "golden retriever",
" Golden Retriever " and "GOLDEN RETRIEVER" to the same value
"Golden Retriever", and the same strip-then-title normalization is what
add_product and edit_product store and what the puppies breed filter
compares against. -/
theorem breed_normalization_contract :
    stripTitle "golden retriever" = "Golden Retriever" ∧
    stripTitle " Golden Retriever " = "Golden Retriever" ∧
    stripTitle "GOLDEN RETRIEVER" = "Golden Retriever" ∧
    (∀ s, s ≠ "" → pyStrip s ≠ "" →
      storedBreedAdd (some s) = some (stripTitle s) ∧
      storedBreedEdit (some s) = some (stripTitle s)) ∧
    (∀ db form db' s, form.breed = some s → s ≠ "" → pyStrip s ≠ "" →
      add_product_post db form = .ok db' →
      ∃ q, db'.products = db.products ++ [q] ∧ q.breed = some (stripTitle s)) ∧
    (∀ db s, s ≠ "" →
      puppies db (some s) =
        db.products.filter
          (fun p => p.breed = some (stripTitle s) && p.is_available)) := by
  refine ⟨by decide, by decide, by decide, ?_, ?_, ?_⟩
  · intro s hs hstrip
    constructor <;> simp [storedBreedAdd, storedBreedEdit, stripTitle, hs, hstrip]
  · intro db form db' s hbreed hs hstrip h
    unfold add_product_post at h
    cases hprice : pyFloatOfForm form.price with
    | error e => rw [hprice] at h; exact absurd h (by simp)
    | ok price =>
      rw [hprice] at h
      cases hrating : ratingOfForm form.rating with
      | error e => rw [hrating] at h; exact absurd h (by simp)
      | ok rating =>
        rw [hrating] at h
        rw [Except.ok.injEq] at h
        subst h
        refine ⟨_, rfl, ?_⟩
        show storedBreedAdd form.breed = some (stripTitle s)
        rw [hbreed]
        simp [storedBreedAdd, stripTitle, hs, hstrip]
  · intro db s hs
    simp only [puppies]
    rw [if_pos hs]

/-- C8 witness: the normalization at concrete inputs, its use by
product creation, and its use by the breed filter. -/
theorem breed_normalization_contract_witness :
    storedBreedAdd (some " rex hound ") = some "Rex Hound" ∧
    (∃ q, dbAfterAddFix.products = dbFix.products ++ [q] ∧
      q.breed = some "German Shepherd") ∧
    puppies dbFix (some "LABRADOR") =
      dbFix.products.filter
        (fun p => p.breed = some "Labrador" && p.is_available) :=
  ⟨((breed_normalization_contract).2.2.2.1 " rex hound " (by decide) (by decide)).1,
   (breed_normalization_contract).2.2.2.2.1 dbFix productFormFix dbAfterAddFix
     " german shepherd " rfl (by decide) (by decide) (by decide),
   (breed_normalization_contract).2.2.2.2.2 dbFix "LABRADOR" (by decide)⟩

/-- C9: the settings save preserves the at-most-one-row invariant
(creating a row only when none exists, updating the first row in place
otherwise), and the stored social_links mapping always has exactly the
keys facebook, twitter, instagram, youtube, with every value taken from
the submitted form (an unsubmitted key becomes the empty string), fully
replacing the previous mapping. -/
theorem site_settings_contract (db : DB) (form : SettingsForm) :
    (db.settings.length ≤ 1 →
      (admin_site_settings_post db form).settings.length ≤ 1) ∧
    (db.settings = [] →
      ∃ s, (admin_site_settings_post db form).settings = [s]) ∧
    (∀ s rest, db.settings = s :: rest →
      ∃ s2, (admin_site_settings_post db form).settings = s2 :: rest ∧
        s2.id = s.id) ∧
    (∀ s2, (admin_site_settings_post db form).settings.head? = some s2 →
      s2.social_links.map Prod.fst =
        ["facebook", "twitter", "instagram", "youtube"] ∧
      (form.social_facebook = none →
        s2.social_links.lookup "facebook" = some "") ∧
      (form.social_twitter = none →
        s2.social_links.lookup "twitter" = some "") ∧
      (form.social_instagram = none →
        s2.social_links.lookup "instagram" = some "") ∧
      (form.social_youtube = none →
        s2.social_links.lookup "youtube" = some "") ∧
      (∀ v, form.social_facebook = some v →
        s2.social_links.lookup "facebook" = some (pyStrip v)) ∧
      (∀ v, form.social_twitter = some v →
        s2.social_links.lookup "twitter" = some (pyStrip v)) ∧
      (∀ v, form.social_instagram = some v →
        s2.social_links.lookup "instagram" = some (pyStrip v)) ∧
      (∀ v, form.social_youtube = some v →
        s2.social_links.lookup "youtube" = some (pyStrip v))) := by
  have hlinks : ∀ s2, (admin_site_settings_post db form).settings.head? = some s2 →
      s2.social_links = socialLinksOf form := by
    intro s2 h2
    unfold admin_site_settings_post at h2
    cases hset : db.settings with
    | nil => rw [hset] at h2; simp at h2; rw [← h2]
    | cons s rest => rw [hset] at h2; simp at h2; rw [← h2]
  refine ⟨?_, ?_, ?_, ?_⟩
  · intro hlen
    unfold admin_site_settings_post
    cases hset : db.settings with
    | nil => simp
    | cons s rest =>
      rw [hset] at hlen
      simpa using hlen
  · intro hset
    unfold admin_site_settings_post
    rw [hset]
    exact ⟨_, rfl⟩
  · intro s rest hset
    unfold admin_site_settings_post
    rw [hset]
    exact ⟨_, rfl, rfl⟩
  · intro s2 h2
    have hl := hlinks s2 h2
    rw [hl]
    have h0 : pyStrip "" = "" := by decide
    refine ⟨rfl, ?_, ?_, ?_, ?_, ?_, ?_, ?_, ?_⟩ <;>
      first
        | (intro hnone; simp [socialLinksOf, List.lookup, hnone, h0])
        | (intro v hv; simp [socialLinksOf, List.lookup, hv])

/-- C9 witness: the first save creates the single row; its social_links
has the four fixed keys, the unsubmitted twitter is stored as the empty
string, and the submitted facebook link is stored stripped. -/
theorem site_settings_contract_witness :
    (∃ s, dbAfterSettings.settings = [s]) ∧
    settingsAfterFix.social_links.map Prod.fst =
      ["facebook", "twitter", "instagram", "youtube"] ∧
    settingsAfterFix.social_links.lookup "twitter" = some "" ∧
    settingsAfterFix.social_links.lookup "facebook" = some "https://fb.example" :=
  ⟨(site_settings_contract dbFix settingsFormFix).2.1 rfl,
   ((site_settings_contract dbFix settingsFormFix).2.2.2 settingsAfterFix
      (by decide)).1,
   ((site_settings_contract dbFix settingsFormFix).2.2.2 settingsAfterFix
      (by decide)).2.2.1 rfl,
   by
     have := ((site_settings_contract dbFix settingsFormFix).2.2.2 settingsAfterFix
       (by decide)).2.2.2.2.2.1 " https://fb.example " rfl
     rw [this]
     decide⟩

/-- C10: a checkout POST whose truthy product_id matches no stored
Product does not complete normally: the unguarded product.price read
aborts the request (AttributeError on None when the total parsed, the
total's own parse error otherwise), and since the model returns an
error the state is untouched — no order or order item is committed. -/
theorem checkout_missing_product_aborts (db : DB) (cu : Option Nat) (ts : String)
    (form : CheckoutForm) (s : String)
    (hs : form.product_id = some s) (hne : s ≠ "")
    (hp : lookupProduct db s = none) :
    (∀ t, pyFloatOfForm form.total_amount = .ok t →
      checkout_post db cu ts form = .error .attributeError) ∧
    (∃ e, checkout_post db cu ts form = .error e) := by
  have h1 : ∀ t, pyFloatOfForm form.total_amount = .ok t →
      checkout_post db cu ts form = .error .attributeError := by
    intro t ht
    unfold checkout_post
    rw [ht, hs]
    simp only [truthy, Option.getD_some, hp]
    rw [if_pos (by simp [hne])]
  refine ⟨h1, ?_⟩
  cases hpt : pyFloatOfForm form.total_amount with
  | error e =>
    refine ⟨e, ?_⟩
    unfold checkout_post
    rw [hpt]
  | ok t => exact ⟨.attributeError, h1 t hpt⟩

/-- C10 witness: checking out the nonexistent product 99 aborts with the
AttributeError from reading None.price. -/
theorem checkout_missing_product_aborts_witness :
    checkout_post dbFix none "20260101000000" checkoutFormMissing =
      .error .attributeError :=
  (checkout_missing_product_aborts dbFix none "20260101000000"
    checkoutFormMissing "99" rfl (by decide) (by decide)).1 500 (by decide)
